import Mathlib

/-!
Verification development for the binding-dispatch runtime specified behind the
azure-functions-templates repository.  The repository itself contains only
declarative templates (src/templates/python/*/function_app.py); the runtime
they presuppose (registration table, event router, binding resolver,
invocation engine, type converter registry) is specified in spec.md and is
modelled here from that specification.  The two CosmosDB template handlers are
embedded directly from their Python sources.
-/

/-- The opening brace character, used to delimit placeholders in addressing
patterns such as the blob path out/\x7btrigger.id\x7d. -/
def openBrace : Char := Char.ofNat 123

/-- The closing brace character. -/
def closeBrace : Char := Char.ofNat 125

/-- Look up a key in an association list. -/
def assocLookup {β : Type} (k : String) : List (String × β) → Option β
  | [] => none
  | (k', v) :: rest => if k' = k then some v else assocLookup k rest

/-- Modelled from the spec: direction of a BindingDescriptor
(trigger / input / output), sec. 3 of spec.md; the runtime holding this type
is absent from the repository. -/
inductive Direction where
  | trigger
  | input
  | output
deriving DecidableEq, Repr

/-- A JSON-like document, as handled by the CosmosDB bindings: a mapping of
field names to values. -/
abbrev Doc : Type := List (String × String)

/-- Modelled from the spec: a typed value produced by the Type Converter
Registry (sec. 2 item 2): raw string fallback, a document list, a single
document, or an HTTP response value returned by a handler. -/
inductive TypedValue where
  | raw (s : String)
  | docs (ds : List Doc)
  | doc (d : Doc)
  | httpResponse (status : Nat) (body : String)
deriving DecidableEq, Repr

/-- Modelled from the spec: BindingDescriptor (sec. 3): direction, sourceKind,
connectionRef, addressing map, optional declaredType, argName, and the
required flag used by the Binding Resolver (sec. 4.3). -/
structure BindingDescriptor where
  direction : Direction
  sourceKind : String
  connectionRef : String
  addressing : List (String × String)
  declaredType : Option String
  argName : String
  required : Bool
deriving DecidableEq, Repr

/-- Modelled from the spec: InboundEvent (sec. 3): sourceKind, addressing,
rawPayload and metadata. -/
structure InboundEvent where
  sourceKind : String
  addressing : List (String × String)
  rawPayload : String
  metadata : List (String × String)
deriving DecidableEq, Repr

/-- Result of a handler run: normal completion carrying the output-sink
assignments and an optional return value, a caller-visible failure message, or
an unexpected fault (sec. 4.4). -/
inductive HandlerResult where
  | normal (set : List (String × TypedValue)) (ret : Option TypedValue)
  | error (msg : String)
  | fault
deriving DecidableEq, Repr

/-- Modelled from the spec: a handler entry point receives the trigger value
and the resolved typed arguments, and reports a HandlerResult. -/
def Handler : Type := TypedValue → List (String × TypedValue) → HandlerResult

/-- Modelled from the spec: FunctionRegistration (sec. 3): unique name,
ordered descriptors, handler. -/
structure FunctionRegistration where
  name : String
  descriptors : List BindingDescriptor
  handler : Handler

/-- Modelled from the spec: the Function Registration Table (sec. 4.1),
an in-memory table of registrations. -/
abbrev Table : Type := List FunctionRegistration

/-- Modelled from the spec: startup-time registration errors (sec. 7). -/
inductive RegError where
  | duplicateRegistration
  | invalidDescriptorSet
deriving DecidableEq, Repr

/-- Count of trigger descriptors in a descriptor set. -/
def triggerCount (ds : List BindingDescriptor) : Nat :=
  (ds.filter (fun d => d.direction = Direction.trigger)).length

/-- Whether a list of strings has no duplicates (boolean form). -/
def distinctStrings : List String → Bool
  | [] => true
  | s :: rest => !(rest.contains s) && distinctStrings rest

/-- Modelled from the spec: the descriptor-set invariant of sec. 3 — exactly
one trigger descriptor and argNames unique within the registration. -/
def validDescriptorSet (ds : List BindingDescriptor) : Bool :=
  triggerCount ds == 1 && distinctStrings (ds.map (fun d => d.argName))

/-- Modelled from the spec: register(name, descriptors, handler) (sec. 4.1);
fails with DuplicateRegistration if the name is present, with
InvalidDescriptorSet if the descriptor-set invariant is violated, and never
silently registers a malformed entry (sec. 7). -/
def registerFn (t : Table) (name : String) (ds : List BindingDescriptor)
    (h : Handler) : Except RegError Table :=
  if t.any (fun r => r.name == name) then
    Except.error RegError.duplicateRegistration
  else if validDescriptorSet ds then
    Except.ok (t ++ [FunctionRegistration.mk name ds h])
  else
    Except.error RegError.invalidDescriptorSet

/-- Modelled from the spec: one startup registration step; a startup error
aborts registration of the offending function but not the whole table
(sec. 7). -/
def regStep (t : Table) (s : String × List BindingDescriptor × Handler) :
    Table :=
  match registerFn t s.1 s.2.1 s.2.2 with
  | Except.ok t' => t'
  | Except.error _ => t

/-- Modelled from the spec: startup builds the table by registering each
declared function in turn (sec. 7). -/
def buildTable (specs : List (String × List BindingDescriptor × Handler)) :
    Table :=
  specs.foldl regStep []

/-- The registration-table invariant of spec.md sec. 3: globally unique
names, and every registration has a valid descriptor set (exactly one
trigger, unique argNames). -/
def tableWF (t : Table) : Prop :=
  (t.map (fun r => r.name)).Nodup ∧
  ∀ r ∈ t, validDescriptorSet r.descriptors = true

/-- If a pattern string is a placeholder of the form \x7bname\x7d, return the
name. -/
def placeholderName (s : String) : Option String :=
  match s.data with
  | [] => none
  | c :: rest =>
    if c = openBrace ∧ rest ≠ [] ∧ rest.getLast? = some closeBrace then
      some (String.mk (rest.dropLast))
    else
      none

/-- Modelled from the spec: addressing-pattern match (sec. 4.2): literal
fields must match exactly, placeholder fields match any non-empty value and
bind it for later substitution.  Returns the bindings on success. -/
def matchAddr (event : List (String × String)) :
    List (String × String) → Option (List (String × String))
  | [] => some []
  | (k, pv) :: rest =>
    match assocLookup k event with
    | none => none
    | some ev =>
      match placeholderName pv with
      | some name =>
        if ev = "" then none
        else
          match matchAddr event rest with
          | none => none
          | some bs => some ((name, ev) :: bs)
      | none =>
        if pv = ev then matchAddr event rest else none

/-- Scan the characters of a template up to the next closing brace, returning
the placeholder key and the remaining characters. -/
def takeKey : List Char → (List Char × List Char)
  | [] => ([], [])
  | c :: cs =>
    if c = closeBrace then ([], cs)
    else
      let p := takeKey cs
      (c :: p.1, p.2)

/-- Fuel-indexed placeholder substitution over a character list: each
\x7bkey\x7d is replaced by the environment's value for key (left unchanged
when the key is unbound). -/
def substChars (env : List (String × String)) : Nat → List Char → List Char
  | 0, _ => []
  | _, [] => []
  | fuel + 1, c :: cs =>
    if c = openBrace then
      let p := takeKey cs
      let key := String.mk p.1
      match assocLookup key env with
      | some v => v.data ++ substChars env fuel p.2
      | none => (openBrace :: p.1) ++ closeBrace :: substChars env fuel p.2
    else
      c :: substChars env fuel cs

/-- Modelled from the spec: placeholder substitution (sec. 4.3) applied to a
pattern string using values bound during routing or extracted from the
triggering event. -/
def substTemplate (env : List (String × String)) (s : String) : String :=
  String.mk (substChars env (s.data.length + 1) s.data)

/-- Substitute placeholders in every value of an addressing map. -/
def substAddr (env : List (String × String))
    (addr : List (String × String)) : List (String × String) :=
  addr.map (fun kv => (kv.1, substTemplate env kv.2))

/-- Modelled from the spec: the Type Converter Registry (sec. 2 item 2,
sec. 9): a mapping keyed by (sourceKind, declaredType) returning a conversion
function. -/
abbrev ConverterRegistry : Type :=
  List ((String × String) × (String → TypedValue))

/-- Look up a converter for a (sourceKind, declaredType) pair; a descriptor
with no declaredType has no converter. -/
def lookupConverter (reg : ConverterRegistry) (sk : String)
    (dt : Option String) : Option (String → TypedValue) :=
  match dt with
  | none => none
  | some t =>
    match reg.find? (fun e => e.1.1 == sk && e.1.2 == t) with
    | some e => some e.2
    | none => none

/-- Modelled from the spec: type conversion (sec. 4.3): a raw payload is
converted via the registry; absence of a match falls back to the raw
representation, never a hard failure. -/
def convert (reg : ConverterRegistry) (sk : String) (dt : Option String)
    (payload : String) : TypedValue :=
  match lookupConverter reg sk dt with
  | some f => f payload
  | none => TypedValue.raw payload

/-- Modelled from the spec: parse a raw payload into a document list (the
CosmosDB-style conversion of a raw payload into a typed document list,
sec. 9); an empty payload yields an empty list. -/
def parseDocList (payload : String) : TypedValue :=
  if payload = "" then TypedValue.docs []
  else TypedValue.docs [[("body", payload)]]

/-- Modelled from the spec: the default converter registry; the open-ended
generic sourceKind has no registered converter (sec. 4.5). -/
def defaultRegistry : ConverterRegistry :=
  [(("document", "documentList"), parseDocList),
   (("queue", "string"), TypedValue.raw),
   (("blob", "string"), TypedValue.raw)]

/-- Modelled from the spec: the empty/absent typed value produced for a
non-required input whose fetch reported NotFound (sec. 4.3): an empty
document list for a documentList declaredType, an empty raw value otherwise. -/
def emptyValue (dt : Option String) : TypedValue :=
  match dt with
  | some "documentList" => TypedValue.docs []
  | _ => TypedValue.raw ""

/-- The trigger descriptor of a registration, when present. -/
def triggerOf (r : FunctionRegistration) : Option BindingDescriptor :=
  r.descriptors.find? (fun d => d.direction == Direction.trigger)

/-- Modelled from the spec: lookupByTrigger / the router's matching filter
(sec. 4.1, 4.2): registrations whose trigger descriptor's sourceKind equals
the event's and whose addressing pattern matches. -/
def matchingRegs (t : Table) (e : InboundEvent) : List FunctionRegistration :=
  t.filter (fun r =>
    match triggerOf r with
    | some d =>
      d.sourceKind == e.sourceKind && (matchAddr e.addressing d.addressing).isSome
    | none => false)

/-- Outcome of routing: the single match with its placeholder bindings, or a
loud failure on zero or multiple matches (sec. 4.2). -/
inductive RouteResult where
  | matched (r : FunctionRegistration) (bindings : List (String × String))
  | noMatchingRoute
  | ambiguousRoute

/-- Modelled from the spec: route(event) (sec. 4.2): zero matches fail with
NoMatchingRoute, more than one fails with AmbiguousRoute rather than silently
picking one. -/
def route (t : Table) (e : InboundEvent) : RouteResult :=
  match matchingRegs t e with
  | [] => RouteResult.noMatchingRoute
  | [r] =>
    let bs :=
      match triggerOf r with
      | some d => (matchAddr e.addressing d.addressing).getD []
      | none => []
    RouteResult.matched r bs
  | _ :: _ :: _ => RouteResult.ambiguousRoute

/-- A fetch call issued to an external collaborator (sec. 6). -/
structure FetchCall where
  sourceKind : String
  connectionRef : String
  addressing : List (String × String)
deriving DecidableEq, Repr

/-- A persist call issued to an external collaborator (sec. 6). -/
structure PersistCall where
  sourceKind : String
  connectionRef : String
  addressing : List (String × String)
  value : TypedValue
deriving DecidableEq, Repr

/-- Result of a collaborator fetch: a raw payload, NotFound, or an error
(sec. 6). -/
inductive FetchResult where
  | found (payload : String)
  | notFound
  | fetchError (msg : String)
deriving DecidableEq, Repr

/-- Result of a collaborator persist: an acknowledgement or an error
(sec. 6). -/
inductive PersistResult where
  | ack
  | persistError (msg : String)
deriving DecidableEq, Repr

/-- Modelled from the spec: the external collaborator capabilities the core
depends on (sec. 6): fetch and persist. -/
structure Collaborator where
  fetch : String → String → List (String × String) → FetchResult
  persist : String → String → List (String × String) → TypedValue → PersistResult

/-- Decidable equality for Except values, needed to evaluate resolver
results on concrete inputs. -/
instance exceptDecEq {α β : Type} [DecidableEq α] [DecidableEq β] :
    DecidableEq (Except α β) := fun a b =>
  match a, b with
  | Except.error x, Except.error y => decidable_of_iff (x = y) (by simp)
  | Except.error _, Except.ok _ => Decidable.isFalse (by simp)
  | Except.ok _, Except.error _ => Decidable.isFalse (by simp)
  | Except.ok x, Except.ok y => decidable_of_iff (x = y) (by simp)

/-- Result of resolving the non-trigger descriptors: the fetch calls issued,
and either the failing argName (BindingResolutionError) or the typed
arguments together with the allocated output sinks. -/
structure ResolveResult where
  fetchCalls : List FetchCall
  resolved : Except String (List (String × TypedValue) × List BindingDescriptor)
deriving DecidableEq, Repr

/-- Modelled from the spec: the Binding Resolver (sec. 4.3): iterate the
non-trigger descriptors in declaration order; inputs are placeholder-
substituted, fetched and converted (NotFound yields the empty value unless
the descriptor is required, in which case BindingResolutionError names the
argName; a fetch error also fails); outputs allocate a sink with substituted
addressing and perform no I/O. -/
def resolveDescs (reg : ConverterRegistry) (c : Collaborator)
    (env : List (String × String)) : List BindingDescriptor → ResolveResult
  | [] => ResolveResult.mk [] (Except.ok ([], []))
  | d :: ds =>
    match d.direction with
    | Direction.trigger => resolveDescs reg c env ds
    | Direction.output =>
      let d' := BindingDescriptor.mk Direction.output d.sourceKind
        d.connectionRef (substAddr env d.addressing) d.declaredType d.argName
        d.required
      let r := resolveDescs reg c env ds
      match r.resolved with
      | Except.ok p => ResolveResult.mk r.fetchCalls (Except.ok (p.1, d' :: p.2))
      | Except.error a => ResolveResult.mk r.fetchCalls (Except.error a)
    | Direction.input =>
      let addr := substAddr env d.addressing
      let call := FetchCall.mk d.sourceKind d.connectionRef addr
      match c.fetch d.sourceKind d.connectionRef addr with
      | FetchResult.found payload =>
        let v := convert reg d.sourceKind d.declaredType payload
        let r := resolveDescs reg c env ds
        match r.resolved with
        | Except.ok p =>
          ResolveResult.mk (call :: r.fetchCalls)
            (Except.ok ((d.argName, v) :: p.1, p.2))
        | Except.error a =>
          ResolveResult.mk (call :: r.fetchCalls) (Except.error a)
      | FetchResult.notFound =>
        if d.required then
          ResolveResult.mk [call] (Except.error d.argName)
        else
          let v := emptyValue d.declaredType
          let r := resolveDescs reg c env ds
          match r.resolved with
          | Except.ok p =>
            ResolveResult.mk (call :: r.fetchCalls)
              (Except.ok ((d.argName, v) :: p.1, p.2))
          | Except.error a =>
            ResolveResult.mk (call :: r.fetchCalls) (Except.error a)
      | FetchResult.fetchError _ =>
        ResolveResult.mk [call] (Except.error d.argName)

/-- Result of the commit phase: the successfully persisted calls in order,
and the failing call when a persist reported an error. -/
structure CommitResult where
  succeeded : List PersistCall
  failedCall : Option PersistCall
deriving DecidableEq, Repr

/-- Modelled from the spec: the commit phase (sec. 4.4): for every output
sink that was set, persist it in descriptor declaration order; an unset sink
is simply not persisted; a persistence failure stops the phase, already
persisted values remaining committed (no rollback, sec. 8). -/
def commit (c : Collaborator) (set : List (String × TypedValue)) :
    List BindingDescriptor → CommitResult
  | [] => CommitResult.mk [] none
  | d :: ds =>
    match assocLookup d.argName set with
    | none => commit c set ds
    | some v =>
      let call := PersistCall.mk d.sourceKind d.connectionRef d.addressing v
      match c.persist d.sourceKind d.connectionRef d.addressing v with
      | PersistResult.ack =>
        let r := commit c set ds
        CommitResult.mk (call :: r.succeeded) r.failedCall
      | PersistResult.persistError _ =>
        CommitResult.mk [] (some call)

/-- Modelled from the spec: the per-event outcome taxonomy (sec. 4.4,
sec. 7). -/
inductive Outcome where
  | ok
  | noMatchingRoute
  | ambiguousRoute
  | bindingResolutionError (argName : String)
  | handlerError (msg : String)
  | handlerFault
  | outputPersistenceError
deriving DecidableEq, Repr

/-- Result of invoking a handler: the outcome, the persisted calls, the
failing persist call if any, and the handler's return value. -/
structure InvokeResult where
  outcome : Outcome
  persisted : List PersistCall
  failedPersist : Option PersistCall
  returned : Option TypedValue
deriving DecidableEq, Repr

/-- Modelled from the spec: the Invocation Engine (sec. 4.4): call the handler
once with the trigger value and resolved inputs; on normal completion run the
commit phase (a failure there is OutputPersistenceError); on a handler error
or fault persist nothing. -/
def invokeHandler (c : Collaborator) (h : Handler) (trigVal : TypedValue)
    (args : List (String × TypedValue)) (sinks : List BindingDescriptor) :
    InvokeResult :=
  match h trigVal args with
  | HandlerResult.error m => InvokeResult.mk (Outcome.handlerError m) [] none none
  | HandlerResult.fault => InvokeResult.mk Outcome.handlerFault [] none none
  | HandlerResult.normal set ret =>
    let r := commit c set sinks
    match r.failedCall with
    | some f =>
      InvokeResult.mk Outcome.outputPersistenceError r.succeeded (some f) ret
    | none => InvokeResult.mk Outcome.ok r.succeeded none ret

/-- The full observable result of dispatching one inbound event: outcome,
the trigger values the handler was invoked with (one entry per invocation),
the fetch calls issued, the persisted calls, the failing persist call if any,
and the handler's return value. -/
structure DispatchResult where
  outcome : Outcome
  handlerCalls : List TypedValue
  fetchCalls : List FetchCall
  persisted : List PersistCall
  failedPersist : Option PersistCall
  returned : Option TypedValue
deriving DecidableEq, Repr

/-- Modelled from the spec: the substitution environment for a matched event:
values bound during routing plus the event's metadata exposed under
trigger.-prefixed keys (sec. 4.3, sec. 8 end-to-end property). -/
def dispatchEnv (bindings : List (String × String)) (e : InboundEvent) :
    List (String × String) :=
  bindings ++ e.metadata.map (fun kv => ("trigger." ++ kv.1, kv.2))

/-- Modelled from the spec: full dispatch of one inbound event (sec. 2):
route, resolve, invoke, persist. -/
def dispatch (reg : ConverterRegistry) (t : Table) (c : Collaborator)
    (e : InboundEvent) : DispatchResult :=
  match route t e with
  | RouteResult.noMatchingRoute =>
    DispatchResult.mk Outcome.noMatchingRoute [] [] [] none none
  | RouteResult.ambiguousRoute =>
    DispatchResult.mk Outcome.ambiguousRoute [] [] [] none none
  | RouteResult.matched r bindings =>
    let env := dispatchEnv bindings e
    let rr := resolveDescs reg c env r.descriptors
    match rr.resolved with
    | Except.error a =>
      DispatchResult.mk (Outcome.bindingResolutionError a) [] rr.fetchCalls []
        none none
    | Except.ok p =>
      let trigVal :=
        match triggerOf r with
        | some d => convert reg d.sourceKind d.declaredType e.rawPayload
        | none => TypedValue.raw e.rawPayload
      let ir := invokeHandler c r.handler trigVal p.1 p.2
      DispatchResult.mk ir.outcome [trigVal] rr.fetchCalls ir.persisted
        ir.failedPersist ir.returned

/-- Set a field of a document, replacing an existing entry or appending a new
one (the Python assignment doc["text"] = ... in
src/templates/python/CosmosDBInputOutputBinding/function_app.py). -/
def setField (d : Doc) (k v : String) : Doc :=
  if (assocLookup k d).isSome then
    d.map (fun kv => if kv.1 = k then (k, v) else kv)
  else
    d ++ [(k, v)]

/-- Rendering of a document, standing for Python str(doc) in
src/templates/python/CosmosDBInputBinding/function_app.py. -/
def docStr (d : Doc) : String :=
  String.intercalate ", " (d.map (fun kv => kv.1 ++ ": " ++ kv.2))

/-- Embedded from src/templates/python/CosmosDBInputOutputBinding/
function_app.py, test_function: takes inputDocument[0] with no emptiness
guard (an empty list raises IndexError, an unexpected fault), updates the
document's text field and sets the outputDocument sink. -/
def cosmosInOutHandler : Handler := fun _msg args =>
  match assocLookup "inputDocument" args with
  | some (TypedValue.docs []) => HandlerResult.fault
  | some (TypedValue.docs (d :: _)) =>
    HandlerResult.normal
      [("outputDocument", TypedValue.doc (setField d "text" "This was updated!"))]
      none
  | _ => HandlerResult.fault

/-- Embedded from src/templates/python/CosmosDBInputBinding/function_app.py,
test_function: an empty inputDocument list returns a 404 HttpResponse
normally; otherwise the first document is rendered in a 200 response. -/
def cosmosInputHandler : Handler := fun _req args =>
  match assocLookup "inputDocument" args with
  | some (TypedValue.docs []) =>
    HandlerResult.normal [] (some (TypedValue.httpResponse 404 "Document not found"))
  | some (TypedValue.docs (d :: _)) =>
    HandlerResult.normal [] (some (TypedValue.httpResponse 200 (docStr d)))
  | _ => HandlerResult.fault

/-- Embedded from src/templates/python/QueueTrigger/function_app.py,
queue_trigger: logs the message and sets no output sinks. -/
def queueTriggerHandler : Handler := fun _msg _args =>
  HandlerResult.normal [] none

/-- A collaborator whose fetch always reports NotFound and whose persist
always acknowledges. -/
def collabAck : Collaborator :=
  Collaborator.mk (fun _ _ _ => FetchResult.notFound)
    (fun _ _ _ _ => PersistResult.ack)

/-- Trigger descriptor of the end-to-end scenario of spec.md sec. 8:
sourceKind queue, addressing queue=q1. -/
def trigC1 : BindingDescriptor :=
  BindingDescriptor.mk Direction.trigger "queue" "conn" [("queue", "q1")]
    none "msg" false

/-- Output descriptor of the end-to-end scenario: sourceKind blob, path
out/\x7btrigger.id\x7d. -/
def outC1 : BindingDescriptor :=
  BindingDescriptor.mk Direction.output "blob" "conn"
    [("path", "out/\x7btrigger.id\x7d")] none "outputBlob" false

/-- Handler of the end-to-end scenario: sets the output sink to HELLO. -/
def handlerC1 : Handler := fun _trig _args =>
  HandlerResult.normal [("outputBlob", TypedValue.raw "HELLO")] none

/-- Registration table of the end-to-end scenario: the single function F. -/
def tableC1 : Table := buildTable [("F", [trigC1, outC1], handlerC1)]

/-- Inbound event of the end-to-end scenario. -/
def eventC1 : InboundEvent :=
  InboundEvent.mk "queue" [("queue", "q1")] "hello" [("id", "42")]

/-- Table with two functions registered on the identical trigger sourceKind
and addressing (the AmbiguousRoute scenario of spec.md sec. 8). -/
def tableC2 : Table :=
  buildTable
    [("F1", [trigC1], handlerC1),
     ("F2", [BindingDescriptor.mk Direction.trigger "queue" "conn2"
        [("queue", "q1")] none "msg" false], queueTriggerHandler)]

/-- First output descriptor of the two-output commit scenario. -/
def outC6a : BindingDescriptor :=
  BindingDescriptor.mk Direction.output "blob" "conn" [("path", "o1")]
    none "out1" false

/-- Second output descriptor of the two-output commit scenario. -/
def outC6b : BindingDescriptor :=
  BindingDescriptor.mk Direction.output "blob" "conn" [("path", "o2")]
    none "out2" false

/-- Handler of the two-output commit scenario: sets both sinks. -/
def handlerC6 : Handler := fun _trig _args =>
  HandlerResult.normal
    [("out1", TypedValue.raw "A"), ("out2", TypedValue.raw "B")] none

/-- Table of the two-output commit scenario. -/
def tableC6 : Table :=
  buildTable [("G",
    [BindingDescriptor.mk Direction.trigger "queue" "conn" [("queue", "q6")]
      none "msg" false, outC6a, outC6b], handlerC6)]

/-- Inbound event of the two-output commit scenario. -/
def eventC6 : InboundEvent := InboundEvent.mk "queue" [("queue", "q6")] "m6" []

/-- Collaborator of the two-output commit scenario: the persist call for path
o2 fails, every other call acknowledges. -/
def collabC6 : Collaborator :=
  Collaborator.mk (fun _ _ _ => FetchResult.notFound)
    (fun _ _ addr _ =>
      if addr = [("path", "o2")] then PersistResult.persistError "disk full"
      else PersistResult.ack)

/-- Required CosmosDB-style input descriptor for the resolution scenario. -/
def inC5req : BindingDescriptor :=
  BindingDescriptor.mk Direction.input "document" "cosmosConn"
    [("database", "MyDatabase"), ("collection", "MyCollection"), ("id", "7")]
    (some "documentList") "inputDocument" true

/-- Non-required variant of the resolution-scenario input descriptor. -/
def inC5opt : BindingDescriptor :=
  BindingDescriptor.mk Direction.input "document" "cosmosConn"
    [("database", "MyDatabase"), ("collection", "MyCollection"), ("id", "7")]
    (some "documentList") "inputDocument" false

/-- Collaborator whose fetch reports a found document payload. -/
def collabFound : Collaborator :=
  Collaborator.mk (fun _ _ _ => FetchResult.found "doc-7")
    (fun _ _ _ _ => PersistResult.ack)

/-- Registration table mirroring
src/templates/python/CosmosDBInputOutputBinding/function_app.py: queue
trigger, non-required CosmosDB input, CosmosDB output. -/
def tableC10 : Table :=
  buildTable [("test_function",
    [BindingDescriptor.mk Direction.trigger "queue" "QueueStorageConnection"
      [("queue", "outqueue")] none "msg" false,
     BindingDescriptor.mk Direction.input "document" "MyAccount_COSMOSDB"
      [("database", "MyDatabase"), ("collection", "MyCollection"),
       ("id", "\x7bmsg.payload_property\x7d")]
      (some "documentList") "inputDocument" false,
     BindingDescriptor.mk Direction.output "document" "MyAccount_COSMOSDB"
      [("database", "MyDatabase"), ("collection", "MyCollection")]
      none "outputDocument" false], cosmosInOutHandler)]

/-- Inbound queue event for the CosmosDB input/output scenario. -/
def eventC10 : InboundEvent :=
  InboundEvent.mk "queue" [("queue", "outqueue")] "msg-10" []

/-- Registration table mirroring
src/templates/python/QueueTrigger/function_app.py: a plain queue trigger with
no output descriptors. -/
def tableC9 : Table :=
  buildTable [("queue_trigger",
    [BindingDescriptor.mk Direction.trigger "queue" "QueueStorageConnection"
      [("queue", "queuename")] none "azqueue" false], queueTriggerHandler)]

/-- Inbound queue event for the plain queue-trigger scenario. -/
def eventC9 : InboundEvent :=
  InboundEvent.mk "queue" [("queue", "queuename")] "msg-body" []

/-- A handler that always signals a caller-visible failure. -/
def errHandler : Handler := fun _ _ => HandlerResult.error "bad input"

/-- A handler that always raises an unexpected fault. -/
def faultHandler : Handler := fun _ _ => HandlerResult.fault

lemma commit_nil_set (c : Collaborator) (sinks : List BindingDescriptor) :
    commit c [] sinks = CommitResult.mk [] none := by
  induction sinks with
  | nil => rfl
  | cons d ds ih => simp [commit, assocLookup, ih]

lemma regStep_wf (t : Table) (s : String × List BindingDescriptor × Handler) :
    tableWF t → tableWF (regStep t s) := by
  rintro ⟨hnd, hvd⟩
  unfold regStep registerFn
  by_cases h1 : t.any (fun r => r.name == s.1) = true
  · simp only [h1, if_true]
    exact ⟨hnd, hvd⟩
  · rw [Bool.not_eq_true] at h1
    by_cases h2 : validDescriptorSet s.2.1 = true
    · simp only [h1, Bool.false_eq_true, if_false, h2, if_true]
      constructor
      · rw [List.map_append, List.nodup_append]
        refine ⟨hnd, List.nodup_singleton _, ?_⟩
        intro a ha hb
        simp only [List.map_cons, List.map_nil, List.mem_singleton] at hb
        rw [List.any_eq_false] at h1
        rcases List.mem_map.mp ha with ⟨r, hr, hname⟩
        have hne := h1 r hr
        simp only [beq_iff_eq] at hne
        apply hne
        rw [hname, hb]
      · intro r hr
        rcases List.mem_append.mp hr with h | h
        · exact hvd r h
        · simp only [List.mem_singleton] at h
          subst h
          exact h2
    · rw [Bool.not_eq_true] at h2
      simp only [h1, Bool.false_eq_true, if_false, h2, if_true]
      exact ⟨hnd, hvd⟩

lemma foldl_regStep_wf
    (specs : List (String × List BindingDescriptor × Handler)) :
    ∀ t : Table, tableWF t → tableWF (specs.foldl regStep t) := by
  induction specs with
  | nil => intro t h; exact h
  | cons s rest ih => intro t h; exact ih (regStep t s) (regStep_wf t s h)

/-- Claim C1: end-to-end dispatch with placeholder substitution: registering
F with a queue q1 trigger and a blob output addressed out/\x7btrigger.id\x7d,
then dispatching the queue event with rawPayload hello and metadata id=42,
invokes the handler exactly once with trigger value hello, and after the
handler sets the output sink to HELLO the dispatch issues exactly one persist
call to path out/42 with value HELLO. -/
theorem C1_end_to_end_dispatch :
    dispatch defaultRegistry tableC1 collabAck eventC1 =
      DispatchResult.mk Outcome.ok [TypedValue.raw "hello"] []
        [PersistCall.mk "blob" "conn" [("path", "out/42")]
          (TypedValue.raw "HELLO")]
        none none := by
  decide

/-- Claim C2: whenever more than one registration's trigger matches an
inbound event, routing fails with AmbiguousRoute and never silently selects
one; in particular two functions registered on the identical queue trigger
make dispatch of a matching event yield AmbiguousRoute with zero handler
invocations and zero side effects. -/
theorem C2_ambiguous_route_on_multiple_matches :
    (∀ (t : Table) (e : InboundEvent), 2 ≤ (matchingRegs t e).length →
      route t e = RouteResult.ambiguousRoute) ∧
    dispatch defaultRegistry tableC2 collabAck eventC1 =
      DispatchResult.mk Outcome.ambiguousRoute [] [] [] none none := by
  constructor
  · intro t e hlen
    unfold route
    cases h : matchingRegs t e with
    | nil => rw [h] at hlen; simp at hlen
    | cons r rest =>
      cases rest with
      | nil => rw [h] at hlen; simp at hlen
      | cons r2 rest2 => rfl
  · decide

/-- Witness for C2 at the concrete two-registration table. -/
theorem C2_witness : route tableC2 eventC1 = RouteResult.ambiguousRoute :=
  C2_ambiguous_route_on_multiple_matches.1 tableC2 eventC1 (by decide)

/-- Claim C3: an inbound event with zero matching registrations is dispatched
to NoMatchingRoute with no handler invocation, zero fetch calls and zero
persist calls; the table is a pure value and is unchanged. -/
theorem C3_no_matching_route_no_side_effects :
    ∀ (reg : ConverterRegistry) (t : Table) (c : Collaborator)
      (e : InboundEvent), matchingRegs t e = [] →
      dispatch reg t c e =
        DispatchResult.mk Outcome.noMatchingRoute [] [] [] none none := by
  intro reg t c e h
  unfold dispatch route
  rw [h]

/-- Witness for C3: dispatching against the empty table. -/
theorem C3_witness :
    dispatch defaultRegistry [] collabAck eventC1 =
      DispatchResult.mk Outcome.noMatchingRoute [] [] [] none none :=
  C3_no_matching_route_no_side_effects defaultRegistry [] collabAck eventC1 rfl

/-- Claim C4: when the handler signals a failure or raises an unexpected
fault, the invocation engine persists zero outputs — the outcome is
HandlerError or HandlerFault with an empty persisted list and no failed
persist call, so no persist is ever issued before successful handler
completion. -/
theorem C4_handler_failure_persists_nothing :
    ∀ (c : Collaborator) (h : Handler) (tv : TypedValue)
      (args : List (String × TypedValue)) (sinks : List BindingDescriptor)
      (msg : String),
      (h tv args = HandlerResult.error msg →
        invokeHandler c h tv args sinks =
          InvokeResult.mk (Outcome.handlerError msg) [] none none) ∧
      (h tv args = HandlerResult.fault →
        invokeHandler c h tv args sinks =
          InvokeResult.mk Outcome.handlerFault [] none none) := by
  intro c h tv args sinks msg
  constructor <;> intro hh <;> simp [invokeHandler, hh]

/-- Witness for C4 on a concrete failing handler and a concrete faulting
handler. -/
theorem C4_witness :
    invokeHandler collabAck errHandler (TypedValue.raw "x") [] [outC1] =
      InvokeResult.mk (Outcome.handlerError "bad input") [] none none ∧
    invokeHandler collabAck faultHandler (TypedValue.raw "x") [] [outC1] =
      InvokeResult.mk Outcome.handlerFault [] none none :=
  ⟨(C4_handler_failure_persists_nothing collabAck errHandler
      (TypedValue.raw "x") [] [outC1] "bad input").1 rfl,
   (C4_handler_failure_persists_nothing collabAck faultHandler
      (TypedValue.raw "x") [] [outC1] "bad input").2 rfl⟩

/-- Claim C5: resolving a required input descriptor against a collaborator
whose fetch reports NotFound fails with BindingResolutionError naming the
argName; for a non-required descriptor NotFound yields the empty typed value;
a fetch that reports a value yields typedArguments holding the converted
value for that argName. -/
theorem C5_input_binding_resolution :
    ∀ (reg : ConverterRegistry) (c : Collaborator)
      (env : List (String × String)) (d : BindingDescriptor),
      d.direction = Direction.input →
      (c.fetch d.sourceKind d.connectionRef (substAddr env d.addressing) =
          FetchResult.notFound → d.required = true →
        resolveDescs reg c env [d] =
          ResolveResult.mk
            [FetchCall.mk d.sourceKind d.connectionRef
              (substAddr env d.addressing)]
            (Except.error d.argName)) ∧
      (c.fetch d.sourceKind d.connectionRef (substAddr env d.addressing) =
          FetchResult.notFound → d.required = false →
        resolveDescs reg c env [d] =
          ResolveResult.mk
            [FetchCall.mk d.sourceKind d.connectionRef
              (substAddr env d.addressing)]
            (Except.ok ([(d.argName, emptyValue d.declaredType)], []))) ∧
      (∀ p, c.fetch d.sourceKind d.connectionRef (substAddr env d.addressing) =
          FetchResult.found p →
        resolveDescs reg c env [d] =
          ResolveResult.mk
            [FetchCall.mk d.sourceKind d.connectionRef
              (substAddr env d.addressing)]
            (Except.ok
              ([(d.argName, convert reg d.sourceKind d.declaredType p)],
               []))) := by
  intro reg c env d hdir
  refine ⟨fun hf hr => ?_, fun hf hr => ?_, fun p hf => ?_⟩
  · simp [resolveDescs, hdir, hf, hr]
  · simp [resolveDescs, hdir, hf, hr]
  · simp [resolveDescs, hdir, hf]

/-- Witness for C5: the CosmosDB-style input descriptor resolved against a
NotFound collaborator (required and non-required) and against one that
reports a document. -/
theorem C5_witness :
    resolveDescs defaultRegistry collabAck [] [inC5req] =
      ResolveResult.mk
        [FetchCall.mk inC5req.sourceKind inC5req.connectionRef
          (substAddr [] inC5req.addressing)]
        (Except.error inC5req.argName) ∧
    resolveDescs defaultRegistry collabAck [] [inC5opt] =
      ResolveResult.mk
        [FetchCall.mk inC5opt.sourceKind inC5opt.connectionRef
          (substAddr [] inC5opt.addressing)]
        (Except.ok ([(inC5opt.argName, emptyValue inC5opt.declaredType)], [])) ∧
    resolveDescs defaultRegistry collabFound [] [inC5opt] =
      ResolveResult.mk
        [FetchCall.mk inC5opt.sourceKind inC5opt.connectionRef
          (substAddr [] inC5opt.addressing)]
        (Except.ok
          ([(inC5opt.argName,
             convert defaultRegistry inC5opt.sourceKind inC5opt.declaredType
               "doc-7")], [])) :=
  ⟨(C5_input_binding_resolution defaultRegistry collabAck [] inC5req rfl).1
      rfl rfl,
   (C5_input_binding_resolution defaultRegistry collabAck [] inC5opt rfl).2.1
      rfl rfl,
   (C5_input_binding_resolution defaultRegistry collabFound [] inC5opt
      rfl).2.2 "doc-7" rfl⟩

/-- Claim C6: the commit phase persists set sinks in descriptor declaration
order; when the second of two persist calls fails, the first remains
committed (no rollback), the outcome is OutputPersistenceError, and the
handler ran exactly once. -/
theorem C6_commit_order_partial_failure :
    (∀ (c : Collaborator) (set : List (String × TypedValue))
        (d1 d2 : BindingDescriptor) (v1 v2 : TypedValue),
      assocLookup d1.argName set = some v1 →
      assocLookup d2.argName set = some v2 →
      c.persist d1.sourceKind d1.connectionRef d1.addressing v1 =
        PersistResult.ack →
      ((∀ m, c.persist d2.sourceKind d2.connectionRef d2.addressing v2 =
          PersistResult.persistError m →
        commit c set [d1, d2] =
          CommitResult.mk
            [PersistCall.mk d1.sourceKind d1.connectionRef d1.addressing v1]
            (some (PersistCall.mk d2.sourceKind d2.connectionRef
              d2.addressing v2))) ∧
      (c.persist d2.sourceKind d2.connectionRef d2.addressing v2 =
          PersistResult.ack →
        commit c set [d1, d2] =
          CommitResult.mk
            [PersistCall.mk d1.sourceKind d1.connectionRef d1.addressing v1,
             PersistCall.mk d2.sourceKind d2.connectionRef d2.addressing v2]
            none))) ∧
    dispatch defaultRegistry tableC6 collabC6 eventC6 =
      DispatchResult.mk Outcome.outputPersistenceError [TypedValue.raw "m6"]
        []
        [PersistCall.mk "blob" "conn" [("path", "o1")] (TypedValue.raw "A")]
        (some (PersistCall.mk "blob" "conn" [("path", "o2")]
          (TypedValue.raw "B")))
        none := by
  constructor
  · intro c set d1 d2 v1 v2 h1 h2 hp1
    constructor
    · intro m hp2
      simp [commit, h1, h2, hp1, hp2]
    · intro hp2
      simp [commit, h1, h2, hp1, hp2]
  · decide

/-- Witness for C6: the two-output scenario against the failing and the
acknowledging collaborator. -/
theorem C6_witness :
    commit collabC6 [("out1", TypedValue.raw "A"), ("out2", TypedValue.raw "B")]
        [outC6a, outC6b] =
      CommitResult.mk
        [PersistCall.mk outC6a.sourceKind outC6a.connectionRef
          outC6a.addressing (TypedValue.raw "A")]
        (some (PersistCall.mk outC6b.sourceKind outC6b.connectionRef
          outC6b.addressing (TypedValue.raw "B"))) ∧
    commit collabAck [("out1", TypedValue.raw "A"), ("out2", TypedValue.raw "B")]
        [outC6a, outC6b] =
      CommitResult.mk
        [PersistCall.mk outC6a.sourceKind outC6a.connectionRef
          outC6a.addressing (TypedValue.raw "A"),
         PersistCall.mk outC6b.sourceKind outC6b.connectionRef
          outC6b.addressing (TypedValue.raw "B")]
        none :=
  ⟨(C6_commit_order_partial_failure.1 collabC6
      [("out1", TypedValue.raw "A"), ("out2", TypedValue.raw "B")]
      outC6a outC6b (TypedValue.raw "A") (TypedValue.raw "B")
      rfl rfl rfl).1 "disk full" rfl,
   (C6_commit_order_partial_failure.1 collabAck
      [("out1", TypedValue.raw "A"), ("out2", TypedValue.raw "B")]
      outC6a outC6b (TypedValue.raw "A") (TypedValue.raw "B")
      rfl rfl rfl).2 rfl⟩

/-- Claim C7: register fails with DuplicateRegistration on a present name and
with InvalidDescriptorSet on a violated descriptor-set invariant, and every
table built by registration satisfies the invariant: unique names, exactly
one trigger descriptor and unique argNames per registration. -/
theorem C7_registration_invariants :
    (∀ (t : Table) (n : String) (ds : List BindingDescriptor) (h : Handler),
      t.any (fun r => r.name == n) = true →
      registerFn t n ds h = Except.error RegError.duplicateRegistration) ∧
    (∀ (t : Table) (n : String) (ds : List BindingDescriptor) (h : Handler),
      t.any (fun r => r.name == n) = false →
      validDescriptorSet ds = false →
      registerFn t n ds h = Except.error RegError.invalidDescriptorSet) ∧
    (∀ specs, tableWF (buildTable specs)) := by
  refine ⟨?_, ?_, ?_⟩
  · intro t n ds h h1
    simp [registerFn, h1]
  · intro t n ds h h1 h2
    simp [registerFn, h1, h2]
  · intro specs
    exact foldl_regStep_wf specs [] ⟨List.nodup_nil, by simp⟩

/-- Witness for C7: registering the already-present name F fails with
DuplicateRegistration, and registering an empty descriptor set (zero
triggers) fails with InvalidDescriptorSet. -/
theorem C7_witness :
    registerFn tableC1 "F" [trigC1] handlerC1 =
      Except.error RegError.duplicateRegistration ∧
    registerFn [] "G" [] handlerC1 =
      Except.error RegError.invalidDescriptorSet :=
  ⟨C7_registration_invariants.1 tableC1 "F" [trigC1] handlerC1 (by decide),
   C7_registration_invariants.2.1 [] "G" [] handlerC1 rfl rfl⟩

/-- Claim C8: type conversion is total: when no converter is registered for a
(sourceKind, declaredType) pair the result is the raw-string fallback, and in
particular every generic-sourceKind conversion under the default registry
falls back to the raw payload. -/
theorem C8_conversion_fallback_total :
    (∀ (reg : ConverterRegistry) (sk : String) (dt : Option String)
        (p : String),
      lookupConverter reg sk dt = none →
      convert reg sk dt p = TypedValue.raw p) ∧
    (∀ (dt : Option String) (p : String),
      convert defaultRegistry "generic" dt p = TypedValue.raw p) := by
  constructor
  · intro reg sk dt p h
    simp [convert, h]
  · intro dt p
    cases dt <;> rfl

/-- Witness for C8: a queue payload with no declaredType converts to its raw
self. -/
theorem C8_witness :
    convert defaultRegistry "queue" none "payload" = TypedValue.raw "payload" :=
  C8_conversion_fallback_total.1 defaultRegistry "queue" none "payload" rfl

/-- Claim C9: a handler that sets no output sinks causes zero persist calls:
the commit phase skips unset sinks, an empty sink list persists nothing, and
the plain queue-trigger registration (no output descriptors) dispatches with
zero persist calls. -/
theorem C9_unset_sinks_not_persisted :
    (∀ (c : Collaborator) (sinks : List BindingDescriptor),
      commit c [] sinks = CommitResult.mk [] none) ∧
    (∀ (c : Collaborator) (set : List (String × TypedValue)),
      commit c set [] = CommitResult.mk [] none) ∧
    (∀ (c : Collaborator) (set : List (String × TypedValue))
        (d : BindingDescriptor) (ds : List BindingDescriptor),
      assocLookup d.argName set = none →
      commit c set (d :: ds) = commit c set ds) ∧
    (∀ (c : Collaborator) (h : Handler) (tv : TypedValue)
        (args : List (String × TypedValue)) (sinks : List BindingDescriptor)
        (ret : Option TypedValue),
      h tv args = HandlerResult.normal [] ret →
      invokeHandler c h tv args sinks =
        InvokeResult.mk Outcome.ok [] none ret) ∧
    dispatch defaultRegistry tableC9 collabAck eventC9 =
      DispatchResult.mk Outcome.ok [TypedValue.raw "msg-body"] [] [] none
        none := by
  refine ⟨fun c sinks => commit_nil_set c sinks, fun c set => rfl, ?_, ?_, ?_⟩
  · intro c set d ds h
    simp [commit, h]
  · intro c h tv args sinks ret hh
    simp [invokeHandler, hh, commit_nil_set]
  · decide

/-- Witness for C9: a sink whose argName was never set is skipped, and the
queue-trigger handler that sets nothing persists nothing. -/
theorem C9_witness :
    commit collabAck [("x", TypedValue.raw "v")] [outC1] =
      commit collabAck [("x", TypedValue.raw "v")] [] ∧
    invokeHandler collabAck queueTriggerHandler (TypedValue.raw "t") []
        [outC1] =
      InvokeResult.mk Outcome.ok [] none none :=
  ⟨C9_unset_sinks_not_persisted.2.2.1 collabAck
      [("x", TypedValue.raw "v")] outC1 [] rfl,
   C9_unset_sinks_not_persisted.2.2.2.1 collabAck queueTriggerHandler
      (TypedValue.raw "t") [] [outC1] none rfl⟩

/-- Claim C10: the CosmosDB input/output template's handler indexes
inputDocument[0] with no emptiness guard: on an empty document list it
faults before setting outputDocument — so a dispatch whose NotFound fallback
yields the empty list ends in HandlerFault with nothing persisted — while on
a non-empty list it sets outputDocument to the updated document; the
input-only template's handler instead returns a 404 response normally on the
empty list. -/
theorem C10_cosmos_template_handlers :
    cosmosInOutHandler (TypedValue.raw "m")
        [("inputDocument", TypedValue.docs [])] = HandlerResult.fault ∧
    (∀ (tv : TypedValue) (d : Doc) (ds : List Doc),
      cosmosInOutHandler tv [("inputDocument", TypedValue.docs (d :: ds))] =
        HandlerResult.normal
          [("outputDocument",
            TypedValue.doc (setField d "text" "This was updated!"))] none) ∧
    dispatch defaultRegistry tableC10 collabAck eventC10 =
      DispatchResult.mk Outcome.handlerFault [TypedValue.raw "msg-10"]
        [FetchCall.mk "document" "MyAccount_COSMOSDB"
          [("database", "MyDatabase"), ("collection", "MyCollection"),
           ("id", "\x7bmsg.payload_property\x7d")]]
        [] none none ∧
    cosmosInputHandler (TypedValue.raw "r")
        [("inputDocument", TypedValue.docs [])] =
      HandlerResult.normal []
        (some (TypedValue.httpResponse 404 "Document not found")) := by
  refine ⟨rfl, fun tv d ds => rfl, by decide, rfl⟩
